import Mathlib

/-!
Verification of the dotty-mcp interactive SBT session driver
(`src/dotty_mcp/main.py`).

The development shallowly embeds the two classes of the source:

* `SBTProcess` (the interactive session): `_start_process` (startup
  handshake), `execute_command` (send a line, read until the prompt,
  strip the echo, classify), and `close` (graceful shutdown with a
  forced fallback).
* `DottyProject` (the facade): `ensure_sbt_running`, `scalac`,
  `testCompilation`, `close`.

Python strings are modelled on `List Char`; the helpers `pyPrefixL`,
`pyContainsL`, `pySplitL`, `pyStripL`, `pyLower` mirror the Python
operations `startswith`, `in`, `str.split (on one newline)` and
`str.strip`, `str.lower` used by the source.  Interaction with the
pseudo-terminal (what `pexpect.expect` observes) is external input and
is passed in explicitly: `StartupRead` for the handshake read and
`ReadOutcome` for the per-command read.  Per pexpect semantics, a
sentinel (`pexpect.TIMEOUT` / `pexpect.EOF`) listed among the expect
patterns is returned as an index instead of being raised, and an EOF on
a pseudo-terminal means the child process has exited, so `isalive()`
is false afterwards.
-/

namespace DottyMcp

/-! ### Python string primitives -/

/-- Python `small == s[:len(small)]`: Boolean prefix test on char lists. -/
def pyPrefixL : List Char → List Char → Bool
  | [], _ => true
  | _ :: _, [] => false
  | a :: as, b :: bs => if a = b then pyPrefixL as bs else false

/-- Python `needle in hay`: Boolean substring test on char lists
(the empty needle is contained in everything, as in Python). -/
def pyContainsL (needle : List Char) : List Char → Bool
  | [] => pyPrefixL needle []
  | c :: t => pyPrefixL needle (c :: t) || pyContainsL needle t

/-- Python `needle in hay` on `String`s. -/
def pyIn (needle hay : String) : Bool :=
  pyContainsL needle.data hay.data

/-- Python `hay.startswith(small)` on `String`s. -/
def pyStartsWith (hay small : String) : Bool :=
  pyPrefixL small.data hay.data

/-- Python `s.split('\n')`: never returns an empty list; `""` splits to
`[""]`, exactly as in Python. -/
def pySplitL : List Char → List (List Char)
  | [] => [[]]
  | c :: t =>
    if c = '\n' then [] :: pySplitL t
    else
      match pySplitL t with
      | [] => [[c]]
      | h :: r => (c :: h) :: r

/-- Whitespace stripped by Python `str.strip()` (ASCII part). -/
def pyWS (c : Char) : Bool :=
  c = ' ' || c = '\t' || c = '\n' || c = '\r' || c = '\x0b' || c = '\x0c'

/-- Python `s.strip()` on char lists. -/
def pyStripL (l : List Char) : List Char :=
  ((l.dropWhile pyWS).reverse.dropWhile pyWS).reverse

/-- Python `'\n'.join(lines)` on char-list lines. -/
def joinNL : List (List Char) → List Char
  | [] => []
  | [x] => x
  | x :: xs => x ++ '\n' :: joinNL xs

/-- Python `' '.join(parts)` on `String`s. -/
def joinSpace : List String → String
  | [] => ""
  | [x] => x
  | x :: xs => x ++ " " ++ joinSpace xs

/-- Python `s.lower()` (ASCII case folding, as used on SBT output). -/
def pyLower (s : String) : String :=
  ⟨s.data.map Char.toLower⟩

/-- First line of a string, following Python `s.split('\n')[0]`. -/
def headLine (s : String) : String :=
  ⟨(pySplitL s.data).headD []⟩

/-! ### Exceptions raised / caught by the source -/

/-- The Python exception classes that `main.py` raises and catches. -/
inductive PyExc where
  | valueError (msg : String)
  | runtimeError (msg : String)
  | otherExc (msg : String)
  deriving DecidableEq, Repr

/-- The facade's `except` ladder (`main.py` lines 187–192 and 222–227):
`ValueError` and `RuntimeError` become `"Error: ..."`, anything else
becomes `"Unexpected error: ..."`. -/
def pyExcToMsg : PyExc → String
  | PyExc.valueError m => "Error: " ++ m
  | PyExc.runtimeError m => "Error: " ++ m
  | PyExc.otherExc m => "Unexpected error: " ++ m

/-! ### The session: `SBTProcess` -/

/-- The OS-level child process handle behind `self.process`
(`pexpect.spawn` object): all the code observes of it is `isalive()`. -/
structure ProcState where
  alive : Bool
  deriving DecidableEq, Repr

/-- `SBTProcess`: the project root and the optional `pexpect` handle. -/
structure SBTProcess where
  root : String
  process : Option ProcState
  deriving DecidableEq, Repr

/-- What the startup `expect([prompt, simple, TIMEOUT, EOF], ...)` call
observes (`main.py` lines 48–53).  pexpect returns the index of a listed
sentinel instead of raising, so TIMEOUT yields index 2 and EOF index 3;
`before` is the text accumulated so far. -/
inductive StartupRead where
  | promptStd (before : String)
  | promptSimple (before : String)
  | timedOut (before : String)
  | eofEnded (before : String)
  deriving DecidableEq, Repr

/-- Environment of one `SBTProcess.__init__` call: whether the root
exists, whether `root/build.sbt` exists, and what the handshake read
observes. -/
structure StartEnv where
  rootExists : Bool
  hasBuildSbt : Bool
  read : StartupRead
  deriving DecidableEq, Repr

/-- `SBTProcess.__init__` / `_start_process` (`main.py` lines 18–73).
Returns the constructed session (or the propagated exception) together
with the number of `pexpect.spawn` calls made.

The filesystem checks (lines 31–36) run strictly before the spawn.
After the spawn, the handshake expect returns an index; the guard
`if index >= 3` (line 55) only catches EOF (index 3) even though its
comment says "TIMEOUT or EOF" — on TIMEOUT (index 2) the constructor
returns normally.  On index 3 the `RuntimeError` of line 56 is re-raised
by the generic handler of line 72 as
`"Failed to start SBT process: Failed to match prompt. Index: 3"`;
the `except pexpect.TIMEOUT/EOF` handlers of lines 58–71 are unreachable
for this expect call because both sentinels are in the pattern list. -/
def SBTProcess.start (root : String) (env : StartEnv) :
    Except PyExc SBTProcess × Nat :=
  if env.rootExists = false then
    (Except.error (PyExc.valueError
      ("Project root " ++ root ++ " does not exist.")), 0)
  else if env.hasBuildSbt = false then
    (Except.error (PyExc.valueError
      ("No build.sbt found in " ++ root ++ ". Not a valid SBT project.")), 0)
  else
    match env.read with
    | StartupRead.promptStd _ => (Except.ok ⟨root, some ⟨true⟩⟩, 1)
    | StartupRead.promptSimple _ => (Except.ok ⟨root, some ⟨true⟩⟩, 1)
    | StartupRead.timedOut _ => (Except.ok ⟨root, some ⟨true⟩⟩, 1)
    | StartupRead.eofEnded _ =>
      (Except.error (PyExc.runtimeError
        "Failed to start SBT process: Failed to match prompt. Index: 3"), 1)

/-- Echo removal (`main.py` lines 101–103): split the raw captured output
into lines and drop the first line iff the command text occurs in it. -/
def echoStripped (command raw : String) : List (List Char) :=
  match pySplitL raw.data with
  | [] => []
  | l0 :: rest => if pyContainsL command.data l0 then rest else l0 :: rest

/-- Post-processing of `execute_command` (`main.py` lines 100–104):
drop the echo line, rejoin, strip surrounding whitespace. -/
def postprocess (command raw : String) : String :=
  ⟨pyStripL (joinNL (echoStripped command raw))⟩

/-- Status classification (`main.py` line 108):
`1 if '[error]' in output.lower() else 0`. -/
def sbtExitCode (out : String) : Nat :=
  if pyIn "[error]" (pyLower out) = true then 1 else 0

/-- What the per-command `expect(r'sbt:\w+>\s*', ...)` observes.  Neither
sentinel is in this pattern list, so a timeout or an EOF raises the
corresponding pexpect exception (caught at `main.py` lines 112–117);
`raisedOther` is any other exception reaching the generic handler. -/
inductive ReadOutcome where
  | matched (before : String)
  | timedOut
  | streamEnded
  | raisedOther (msg : String)
  deriving DecidableEq, Repr

/-- Result of one `execute_command` call: the session afterwards, the
returned pair or raised exception, and the lines sent to the channel. -/
structure ExecResult where
  state : SBTProcess
  result : Except PyExc (String × Nat)
  sent : List String
  deriving Repr

/-- `SBTProcess.execute_command` (`main.py` lines 75–117).  The liveness
guard of lines 86–87 raises before anything is sent.  On EOF the child
process has exited, so the session's handle is dead afterwards
(`isalive()` is false for every later call). -/
def SBTProcess.execute_command (s : SBTProcess) (command : String)
    (timeout : Nat) (rd : ReadOutcome) : ExecResult :=
  match s.process with
  | none =>
    ⟨s, Except.error (PyExc.runtimeError "SBT process is not running"), []⟩
  | some p =>
    if p.alive = false then
      ⟨s, Except.error (PyExc.runtimeError "SBT process is not running"), []⟩
    else
      match rd with
      | ReadOutcome.matched raw =>
        let out := postprocess command raw
        ⟨s, Except.ok (out, sbtExitCode out), [command]⟩
      | ReadOutcome.timedOut =>
        ⟨s, Except.ok
          ("Command timed out after " ++ toString timeout ++ " seconds", 1),
          [command]⟩
      | ReadOutcome.streamEnded =>
        ⟨⟨s.root, some ⟨false⟩⟩,
          Except.ok ("SBT process terminated unexpectedly", 1), [command]⟩
      | ReadOutcome.raisedOther m =>
        ⟨s, Except.ok ("Error executing command: " ++ m, 1), [command]⟩

/-- Which way the graceful-shutdown attempt of `close` goes: the
`expect(EOF, timeout=10)` either matches (the child exited by itself)
or raises (timeout or any other failure), triggering the bare `except`. -/
inductive CloseOutcome where
  | gracefulEof
  | gracefulFails
  deriving DecidableEq, Repr

/-- Result of one `SBTProcess.close` call: the session afterwards,
whether the `exit` line was sent, and whether `terminate(force=True)`
was invoked. -/
structure CloseResult where
  state : SBTProcess
  sentExit : Bool
  forced : Bool
  deriving DecidableEq, Repr

/-- `SBTProcess.close` (`main.py` lines 119–126): if the process handle
exists and is alive, send `exit` and wait for EOF; on any failure of the
graceful path, force-terminate.  Either way the child is dead afterwards.
If the handle is absent or already dead, do nothing.  No exception
escapes (the bare `except` swallows everything from the graceful path). -/
def SBTProcess.close (s : SBTProcess) (o : CloseOutcome) : CloseResult :=
  match s.process with
  | none => ⟨s, false, false⟩
  | some p =>
    if p.alive then
      match o with
      | CloseOutcome.gracefulEof => ⟨⟨s.root, some ⟨false⟩⟩, true, false⟩
      | CloseOutcome.gracefulFails => ⟨⟨s.root, some ⟨false⟩⟩, true, true⟩
    else ⟨s, false, false⟩

/-! ### The facade: `DottyProject` -/

/-- `DottyProject`: the project root and the memoized session reference
(`self.sbt_process`). -/
structure DottyProject where
  root : String
  sbt_process : Option SBTProcess
  deriving DecidableEq, Repr

/-- Result of one `ensure_sbt_running` call: the facade afterwards, the
normal return or the propagated exception, and the number of child
processes spawned by this call. -/
structure EnsureResult where
  project : DottyProject
  result : Except PyExc Unit
  spawns : Nat
  deriving Repr

/-- `DottyProject.ensure_sbt_running` (`main.py` lines 146–149):
construct a session only when `self.sbt_process is None`.  If the
constructor raises, the reference stays `None`. -/
def DottyProject.ensure_sbt_running (p : DottyProject) (env : StartEnv) :
    EnsureResult :=
  match p.sbt_process with
  | some _ => ⟨p, Except.ok (), 0⟩
  | none =>
    match SBTProcess.start p.root env with
    | (Except.ok s, n) => ⟨⟨p.root, some s⟩, Except.ok (), n⟩
    | (Except.error e, n) => ⟨p, Except.error e, n⟩

/-- `DottyProject.close` (`main.py` lines 229–232): forward to the held
session if present.  The reference `self.sbt_process` is not cleared. -/
def DottyProject.close (p : DottyProject) (o : CloseOutcome) : DottyProject :=
  match p.sbt_process with
  | none => p
  | some s => ⟨p.root, some (SBTProcess.close s o).state⟩

/-- `DottyProject.scalac` (`main.py` lines 151–192): ensure the session,
build `scalac <file> -color:never <options...>`, execute it, format the
result; every exception is converted to a string by the `except` ladder. -/
def DottyProject.scalac (p : DottyProject) (file : String)
    (options : List String) (env : StartEnv) (rd : ReadOutcome) :
    DottyProject × String :=
  let e := DottyProject.ensure_sbt_running p env
  match e.result with
  | Except.error exc => (e.project, pyExcToMsg exc)
  | Except.ok _ =>
    match e.project.sbt_process with
    | none =>
      -- unreachable given ensure_sbt_running; in Python an
      -- AttributeError on None would reach the generic handler
      (e.project, pyExcToMsg (PyExc.otherExc
        "NoneType object has no attribute execute_command"))
    | some s =>
      let cmd := "scalac " ++ file ++ " " ++
        joinSpace ("-color:never" :: options)
      let r := s.execute_command cmd 300 rd
      let p2 : DottyProject := ⟨e.project.root, some r.state⟩
      match r.result with
      | Except.error exc => (p2, pyExcToMsg exc)
      | Except.ok (out, code) =>
        if code = 0 && out = "" then
          (p2, "Successfully compiled " ++ file)
        else if code = 0 then
          (p2, "Successfully compiled " ++ file ++ "\n\nOutput:\n" ++ out)
        else
          (p2, "Compilation failed for " ++ file ++ "\n\n" ++ out)

/-- `DottyProject.testCompilation` (`main.py` lines 194–227): ensure the
session, build `testCompilation [pattern]`, execute, format; every
exception is converted to a string by the `except` ladder. -/
def DottyProject.testCompilation (p : DottyProject) (pat : String)
    (env : StartEnv) (rd : ReadOutcome) : DottyProject × String :=
  let e := DottyProject.ensure_sbt_running p env
  match e.result with
  | Except.error exc => (e.project, pyExcToMsg exc)
  | Except.ok _ =>
    match e.project.sbt_process with
    | none =>
      (e.project, pyExcToMsg (PyExc.otherExc
        "NoneType object has no attribute execute_command"))
    | some s =>
      let cmd := if pat = "" then "testCompilation"
        else "testCompilation " ++ pat
      let r := s.execute_command cmd 300 rd
      let p2 : DottyProject := ⟨e.project.root, some r.state⟩
      match r.result with
      | Except.error exc => (p2, pyExcToMsg exc)
      | Except.ok (out, code) =>
        if code = 0 then
          if out = "" then (p2, "Test compilation succeeded")
          else (p2, "Test compilation succeeded\n\n" ++ out)
        else (p2, "Test compilation failed\n\n" ++ out)

/-! ### Generic lemmas about the string primitives -/

lemma pyContainsL_nil (l : List Char) : pyContainsL [] l = true := by
  induction l with
  | nil => rfl
  | cons c t ih => simp [pyContainsL, pyPrefixL, ih]

lemma pyPrefixL_self_append (x t : List Char) : pyPrefixL x (x ++ t) = true := by
  induction x with
  | nil => rfl
  | cons c cs ih => simp [pyPrefixL, ih]

lemma pyContainsL_self_append (x b : List Char) :
    pyContainsL x (x ++ b) = true := by
  cases x with
  | nil => exact pyContainsL_nil b
  | cons c cs =>
    have h := pyPrefixL_self_append (c :: cs) b
    rw [List.cons_append] at h ⊢
    simp [pyContainsL, h]

lemma pyContainsL_append_mid (a x b : List Char) :
    pyContainsL x (a ++ x ++ b) = true := by
  induction a with
  | nil =>
    have h := pyContainsL_self_append x b
    simpa using h
  | cons c t ih =>
    rw [List.cons_append, List.cons_append]
    simp only [pyContainsL, Bool.or_eq_true]
    exact Or.inr ih

lemma strData_append (a b : String) : (a ++ b).data = a.data ++ b.data := by
  cases a
  cases b
  rfl

lemma pyIn_append_mid (a x b : String) : pyIn x (a ++ x ++ b) = true := by
  show pyContainsL x.data (a ++ x ++ b).data = true
  rw [strData_append, strData_append]
  exact pyContainsL_append_mid a.data x.data b.data

lemma pyStartsWith_append (pre m : String) :
    pyStartsWith (pre ++ m) pre = true := by
  show pyPrefixL pre.data (pre ++ m).data = true
  rw [strData_append]
  exact pyPrefixL_self_append pre.data m.data

/-- `pySplitL` never returns the empty list, so "the first line" of a raw
output is always defined (as in Python, where `s.split('\n')` is never
empty). -/
lemma pySplitL_ne_nil (l : List Char) : pySplitL l ≠ [] := by
  cases l with
  | nil => simp [pySplitL]
  | cons c t =>
    simp only [pySplitL]
    by_cases h : c = '\n'
    · simp [h]
    · simp only [h, if_false]
      cases pySplitL t <;> simp

/-! ### Claim theorems -/

/-- C3: the classification step scans the post-processed output
case-insensitively for the literal marker `"[error]"`: presence yields
status 1, absence yields status 0; `"[ERROR] bad"` and `"[error] bad"`
both classify as failure and `"ok, done"` as success, and
`execute_command` on a live session applies exactly this classification
to the post-processed output. -/
theorem error_marker_classification (out : String) :
    (pyIn "[error]" (pyLower out) = true → sbtExitCode out = 1) ∧
    (pyIn "[error]" (pyLower out) = false → sbtExitCode out = 0) ∧
    sbtExitCode "[ERROR] bad" = 1 ∧
    sbtExitCode "[error] bad" = 1 ∧
    sbtExitCode "ok, done" = 0 ∧
    (∀ (s : SBTProcess) (p : ProcState) (cmd : String) (t : Nat)
        (raw : String), s.process = some p → p.alive = true →
      (s.execute_command cmd t (ReadOutcome.matched raw)).result =
        Except.ok (postprocess cmd raw, sbtExitCode (postprocess cmd raw))) := by
  refine ⟨?_, ?_, by decide, by decide, by decide, ?_⟩
  · intro h
    simp [sbtExitCode, h]
  · intro h
    simp [sbtExitCode, h]
  · intro s p cmd t raw hp ha
    simp [SBTProcess.execute_command, hp, ha]

/-- Witness for C3 at concrete inputs. -/
theorem error_marker_classification_witness :
    sbtExitCode "[ERROR] bad" = 1 ∧
    sbtExitCode "ok, done" = 0 ∧
    (SBTProcess.execute_command ⟨"/dotty", some ⟨true⟩⟩ "compile" 300
        (ReadOutcome.matched "compile\n[ERROR] bad")).result =
      Except.ok (postprocess "compile" "compile\n[ERROR] bad",
        sbtExitCode (postprocess "compile" "compile\n[ERROR] bad")) := by
  refine ⟨(error_marker_classification "[ERROR] bad").1 (by decide),
    (error_marker_classification "ok, done").2.1 (by decide),
    (error_marker_classification "").2.2.2.2.2 ⟨"/dotty", some ⟨true⟩⟩ ⟨true⟩
      "compile" 300 "compile\n[ERROR] bad" rfl rfl⟩

/-- C4 counterexample: the returned output of `execute` can have the
literal echoed command text as its leading line.  With command
`"compile"` and raw output `"compile\ncompile\n[done]"` only the first
echo line is dropped, and the result's leading line is exactly
`"compile"`. -/
theorem echo_leading_line_cex :
    postprocess "compile" "compile\ncompile\n[done]" = "compile\n[done]" ∧
    headLine (postprocess "compile" "compile\ncompile\n[done]") = "compile" := by
  exact ⟨by decide, by decide⟩

/-- C4 (amended): post-processing drops the first line of the raw output
exactly when that line contains the echoed command text, and joins and
trims the remaining lines; only the raw output's original first line is
removed, so a later raw line equal to the command text can still end up
as the leading line of the returned output. -/
theorem echo_line_dropped (t raw : String) (l0 : List Char)
    (rest : List (List Char)) (h : pySplitL raw.data = l0 :: rest) :
    (pyContainsL t.data l0 = true →
      postprocess t raw = ⟨pyStripL (joinNL rest)⟩) ∧
    (pyContainsL t.data l0 = false →
      postprocess t raw = ⟨pyStripL (joinNL (l0 :: rest))⟩) := by
  constructor <;> intro hc <;> simp [postprocess, echoStripped, h, hc]

/-- Witness for C4 (amended) at concrete inputs. -/
theorem echo_line_dropped_witness :
    pySplitL ("compile\nok, done").data = ["compile".data, "ok, done".data] ∧
    postprocess "compile" "compile\nok, done" =
      ⟨pyStripL (joinNL ["ok, done".data])⟩ := by
  refine ⟨by decide, ?_⟩
  exact (echo_line_dropped "compile" "compile\nok, done" "compile".data
    ["ok, done".data] (by decide)).1 (by decide)

/-- C2: if the child's output stream ends during `execute_command`
(pexpect EOF mid-command), that call returns the `UnexpectedTermination`
report `("SBT process terminated unexpectedly", 1)`, the command had
been sent, the session's process handle is dead afterwards, and every
subsequent `execute_command` on that session fails fast with the
`SessionNotRunning` error `RuntimeError "SBT process is not running"`
without sending anything and without changing the session. -/
theorem stream_ended_fails_fast (s : SBTProcess) (p : ProcState)
    (cmd : String) (t : Nat) (h : s.process = some p) (ha : p.alive = true) :
    (s.execute_command cmd t ReadOutcome.streamEnded).result =
      Except.ok ("SBT process terminated unexpectedly", 1) ∧
    (s.execute_command cmd t ReadOutcome.streamEnded).sent = [cmd] ∧
    (s.execute_command cmd t ReadOutcome.streamEnded).state.process =
      some ⟨false⟩ ∧
    (∀ (cmd2 : String) (t2 : Nat) (rd2 : ReadOutcome),
      ((s.execute_command cmd t ReadOutcome.streamEnded).state.execute_command
          cmd2 t2 rd2).result =
        Except.error (PyExc.runtimeError "SBT process is not running") ∧
      ((s.execute_command cmd t ReadOutcome.streamEnded).state.execute_command
          cmd2 t2 rd2).sent = [] ∧
      ((s.execute_command cmd t ReadOutcome.streamEnded).state.execute_command
          cmd2 t2 rd2).state =
        (s.execute_command cmd t ReadOutcome.streamEnded).state) := by
  simp [SBTProcess.execute_command, h, ha]

/-- Witness for C2 at concrete inputs. -/
theorem stream_ended_fails_fast_witness :
    (SBTProcess.execute_command ⟨"/dotty", some ⟨true⟩⟩ "compile" 300
        ReadOutcome.streamEnded).result =
      Except.ok ("SBT process terminated unexpectedly", 1) ∧
    ((SBTProcess.execute_command ⟨"/dotty", some ⟨true⟩⟩ "compile" 300
          ReadOutcome.streamEnded).state.execute_command "compile" 300
        (ReadOutcome.matched "ok")).result =
      Except.error (PyExc.runtimeError "SBT process is not running") ∧
    ((SBTProcess.execute_command ⟨"/dotty", some ⟨true⟩⟩ "compile" 300
          ReadOutcome.streamEnded).state.execute_command "compile" 300
        (ReadOutcome.matched "ok")).sent = [] := by
  have h := stream_ended_fails_fast ⟨"/dotty", some ⟨true⟩⟩ ⟨true⟩
    "compile" 300 rfl rfl
  exact ⟨h.1, (h.2.2.2 "compile" 300 (ReadOutcome.matched "ok")).1,
    (h.2.2.2 "compile" 300 (ReadOutcome.matched "ok")).2.1⟩

/-- C5: when the per-command read times out, the session is left exactly
as it was (in particular the child process is not killed — only the wait
is abandoned), the call reports the `CommandTimeout` result with status
1 whose message mentions the timeout value, and a subsequent
`execute_command` on the same session is still accepted and works
normally. -/
theorem timeout_keeps_session_usable (s : SBTProcess) (p : ProcState)
    (cmd : String) (t : Nat) (h : s.process = some p) (ha : p.alive = true) :
    (s.execute_command cmd t ReadOutcome.timedOut).state = s ∧
    (s.execute_command cmd t ReadOutcome.timedOut).result =
      Except.ok ("Command timed out after " ++ toString t ++ " seconds", 1) ∧
    pyIn (toString t)
      ("Command timed out after " ++ toString t ++ " seconds") = true ∧
    (∀ (cmd2 : String) (t2 : Nat) (raw : String),
      ((s.execute_command cmd t ReadOutcome.timedOut).state.execute_command
          cmd2 t2 (ReadOutcome.matched raw)).result =
        Except.ok (postprocess cmd2 raw,
          sbtExitCode (postprocess cmd2 raw))) := by
  have hst : (s.execute_command cmd t ReadOutcome.timedOut).state = s := by
    simp [SBTProcess.execute_command, h, ha]
  refine ⟨hst, ?_,
    pyIn_append_mid "Command timed out after " (toString t) " seconds", ?_⟩
  · simp [SBTProcess.execute_command, h, ha]
  · intro cmd2 t2 raw
    rw [hst]
    simp [SBTProcess.execute_command, h, ha]

/-- Witness for C5 at concrete inputs. -/
theorem timeout_keeps_session_usable_witness :
    (SBTProcess.execute_command ⟨"/dotty", some ⟨true⟩⟩ "compile" 300
        ReadOutcome.timedOut).state = ⟨"/dotty", some ⟨true⟩⟩ ∧
    (SBTProcess.execute_command ⟨"/dotty", some ⟨true⟩⟩ "compile" 300
        ReadOutcome.timedOut).result =
      Except.ok ("Command timed out after " ++ toString 300 ++ " seconds", 1) ∧
    ((SBTProcess.execute_command ⟨"/dotty", some ⟨true⟩⟩ "compile" 300
          ReadOutcome.timedOut).state.execute_command "compile" 300
        (ReadOutcome.matched "ok")).result =
      Except.ok (postprocess "compile" "ok",
        sbtExitCode (postprocess "compile" "ok")) := by
  have h := timeout_keeps_session_usable ⟨"/dotty", some ⟨true⟩⟩ ⟨true⟩
    "compile" 300 rfl rfl
  exact ⟨h.1, h.2.1, h.2.2.2 "compile" 300 "ok"⟩

/-- C9: `close` on a live session always makes the graceful attempt
(sends the `exit` directive), falls back to forced termination exactly
when the graceful path fails, and leaves the process dead; a second
`close` on the resulting session is a no-op — nothing is sent, nothing
is forced, the state is unchanged — and by construction no exception
escapes `close`. -/
theorem close_graceful_then_noop (s : SBTProcess) (p : ProcState)
    (o o2 : CloseOutcome) (h : s.process = some p) (ha : p.alive = true) :
    (SBTProcess.close s o).sentExit = true ∧
    ((SBTProcess.close s o).forced = true ↔ o = CloseOutcome.gracefulFails) ∧
    (SBTProcess.close s o).state.process = some ⟨false⟩ ∧
    (SBTProcess.close (SBTProcess.close s o).state o2).state =
      (SBTProcess.close s o).state ∧
    (SBTProcess.close (SBTProcess.close s o).state o2).sentExit = false ∧
    (SBTProcess.close (SBTProcess.close s o).state o2).forced = false := by
  cases o <;> simp [SBTProcess.close, h, ha]

/-- Witness for C9 at concrete inputs. -/
theorem close_graceful_then_noop_witness :
    (SBTProcess.close ⟨"/dotty", some ⟨true⟩⟩ CloseOutcome.gracefulEof).sentExit
      = true ∧
    (SBTProcess.close
        (SBTProcess.close ⟨"/dotty", some ⟨true⟩⟩ CloseOutcome.gracefulEof).state
        CloseOutcome.gracefulFails).sentExit = false ∧
    (SBTProcess.close
        (SBTProcess.close ⟨"/dotty", some ⟨true⟩⟩ CloseOutcome.gracefulEof).state
        CloseOutcome.gracefulFails).state =
      (SBTProcess.close ⟨"/dotty", some ⟨true⟩⟩ CloseOutcome.gracefulEof).state := by
  have h := close_graceful_then_noop ⟨"/dotty", some ⟨true⟩⟩ ⟨true⟩
    CloseOutcome.gracefulEof CloseOutcome.gracefulFails rfl rfl
  exact ⟨h.1, h.2.2.2.2.1, h.2.2.2.1⟩

/-- C6: for every working root that does not exist or lacks `build.sbt`,
starting a session fails with the `ConfigurationError` (`ValueError`)
whose message contains the root path, and the spawn count is 0 — the
marker check runs strictly before any spawn attempt. -/
theorem marker_check_before_spawn (root : String) (env : StartEnv)
    (h : env.rootExists = false ∨ env.hasBuildSbt = false) :
    ∃ m, (SBTProcess.start root env).1 =
        Except.error (PyExc.valueError m) ∧
      pyIn root m = true ∧ (SBTProcess.start root env).2 = 0 := by
  cases hre : env.rootExists with
  | false =>
    exact ⟨"Project root " ++ root ++ " does not exist.",
      by simp [SBTProcess.start, hre],
      pyIn_append_mid "Project root " root " does not exist.",
      by simp [SBTProcess.start, hre]⟩
  | true =>
    have hb : env.hasBuildSbt = false := by
      rcases h with h | h
      · rw [hre] at h
        exact absurd h (by simp)
      · exact h
    exact ⟨"No build.sbt found in " ++ root ++ ". Not a valid SBT project.",
      by simp [SBTProcess.start, hre, hb],
      pyIn_append_mid "No build.sbt found in " root ". Not a valid SBT project.",
      by simp [SBTProcess.start, hre, hb]⟩

/-- Witness for C6 at concrete inputs. -/
theorem marker_check_before_spawn_witness :
    ((⟨true, false, StartupRead.promptStd ""⟩ : StartEnv).rootExists = false ∨
      (⟨true, false, StartupRead.promptStd ""⟩ : StartEnv).hasBuildSbt = false) ∧
    (∃ m, (SBTProcess.start "/proj"
          ⟨true, false, StartupRead.promptStd ""⟩).1 =
        Except.error (PyExc.valueError m) ∧
      pyIn "/proj" m = true ∧
      (SBTProcess.start "/proj" ⟨true, false, StartupRead.promptStd ""⟩).2
        = 0) := by
  exact ⟨Or.inr rfl, marker_check_before_spawn "/proj"
    ⟨true, false, StartupRead.promptStd ""⟩ (Or.inr rfl)⟩

/-- C7 (code bug): evaluation of the startup handshake at the failing
inputs.  The handshake expect lists the pexpect TIMEOUT and EOF
sentinels among its patterns, so pexpect reports them as indices 2 and
3; the guard `if index >= 3` (whose comment reads "TIMEOUT or EOF")
misses index 2, so on a handshake timeout the constructor returns
normally and the session is treated as started instead of failing with
a startup error.  On EOF (index 3) a `RuntimeError` is raised, but its
message `"Failed to start SBT process: Failed to match prompt. Index: 3"`
does not carry the partial output captured before the EOF. -/
theorem startup_timeout_bug :
    (SBTProcess.start "/dotty"
        ⟨true, true, StartupRead.timedOut "partial startup output"⟩).1 =
      Except.ok ⟨"/dotty", some ⟨true⟩⟩ ∧
    (SBTProcess.start "/dotty"
        ⟨true, true, StartupRead.eofEnded "partial startup output"⟩).1 =
      Except.error (PyExc.runtimeError
        "Failed to start SBT process: Failed to match prompt. Index: 3") ∧
    pyIn "partial startup output"
      "Failed to start SBT process: Failed to match prompt. Index: 3"
      = false := by
  exact ⟨rfl, rfl, by decide⟩

/-- C8: for a valid working root with the marker file (any environment
in which the session constructor succeeds), `ensure_sbt_running`
followed by `ensure_sbt_running` again leaves the same underlying
session in place, reports success both times, and spawns no child
process on the second call. -/
theorem ensure_ready_idempotent (root : String) (env env2 : StartEnv)
    (s : SBTProcess) (n : Nat)
    (h : SBTProcess.start root env = (Except.ok s, n)) :
    (DottyProject.ensure_sbt_running ⟨root, none⟩ env).project =
      ⟨root, some s⟩ ∧
    (DottyProject.ensure_sbt_running ⟨root, none⟩ env).result =
      Except.ok () ∧
    (DottyProject.ensure_sbt_running
        (DottyProject.ensure_sbt_running ⟨root, none⟩ env).project
        env2).project =
      (DottyProject.ensure_sbt_running ⟨root, none⟩ env).project ∧
    (DottyProject.ensure_sbt_running
        (DottyProject.ensure_sbt_running ⟨root, none⟩ env).project
        env2).spawns = 0 ∧
    (DottyProject.ensure_sbt_running
        (DottyProject.ensure_sbt_running ⟨root, none⟩ env).project
        env2).result = Except.ok () := by
  have h1 : DottyProject.ensure_sbt_running ⟨root, none⟩ env =
      ⟨⟨root, some s⟩, Except.ok (), n⟩ := by
    simp [DottyProject.ensure_sbt_running, h]
  rw [h1]
  simp [DottyProject.ensure_sbt_running]

/-- Witness for C8 at concrete inputs. -/
theorem ensure_ready_idempotent_witness :
    (DottyProject.ensure_sbt_running ⟨"/dotty", none⟩
        ⟨true, true, StartupRead.promptStd ""⟩).project =
      ⟨"/dotty", some ⟨"/dotty", some ⟨true⟩⟩⟩ ∧
    (DottyProject.ensure_sbt_running
        (DottyProject.ensure_sbt_running ⟨"/dotty", none⟩
          ⟨true, true, StartupRead.promptStd ""⟩).project
        ⟨true, true, StartupRead.promptStd ""⟩).spawns = 0 ∧
    (DottyProject.ensure_sbt_running
        (DottyProject.ensure_sbt_running ⟨"/dotty", none⟩
          ⟨true, true, StartupRead.promptStd ""⟩).project
        ⟨true, true, StartupRead.promptStd ""⟩).project =
      (DottyProject.ensure_sbt_running ⟨"/dotty", none⟩
        ⟨true, true, StartupRead.promptStd ""⟩).project := by
  have h := ensure_ready_idempotent "/dotty"
    ⟨true, true, StartupRead.promptStd ""⟩
    ⟨true, true, StartupRead.promptStd ""⟩
    ⟨"/dotty", some ⟨true⟩⟩ 1 rfl
  exact ⟨h.1, h.2.2.2.1, h.2.2.1⟩

/-- C1 counterexample: after the facade's `close()` the facade still
holds the (now closed) session reference, and the next
`ensure_sbt_running` reuses it — no fresh session is constructed and
nothing is spawned — contradicting the claim that the facade holds no
session reference after `close()`. -/
theorem close_keeps_reference_cex :
    (DottyProject.close
        (DottyProject.ensure_sbt_running ⟨"/dotty", none⟩
          ⟨true, true, StartupRead.promptStd ""⟩).project
        CloseOutcome.gracefulEof).sbt_process =
      some ⟨"/dotty", some ⟨false⟩⟩ ∧
    (DottyProject.ensure_sbt_running
        (DottyProject.close
          (DottyProject.ensure_sbt_running ⟨"/dotty", none⟩
            ⟨true, true, StartupRead.promptStd ""⟩).project
          CloseOutcome.gracefulEof)
        ⟨true, true, StartupRead.promptStd ""⟩).project =
      DottyProject.close
        (DottyProject.ensure_sbt_running ⟨"/dotty", none⟩
          ⟨true, true, StartupRead.promptStd ""⟩).project
        CloseOutcome.gracefulEof ∧
    (DottyProject.ensure_sbt_running
        (DottyProject.close
          (DottyProject.ensure_sbt_running ⟨"/dotty", none⟩
            ⟨true, true, StartupRead.promptStd ""⟩).project
          CloseOutcome.gracefulEof)
        ⟨true, true, StartupRead.promptStd ""⟩).spawns = 0 := by
  exact ⟨rfl, rfl, rfl⟩

/-- C1 (amended): the facade's `close()` forwards to the held session if
present but does not clear the reference; consequently
`ensure_sbt_running` constructs a fresh session only when no session
object was ever stored — after `close()` (and likewise after a session
failure) the old session object is retained and reused, with no new
spawn. -/
theorem close_keeps_reference (p : DottyProject) (s : SBTProcess)
    (o : CloseOutcome) (env : StartEnv) (h : p.sbt_process = some s) :
    (DottyProject.close p o).sbt_process =
      some (SBTProcess.close s o).state ∧
    (DottyProject.ensure_sbt_running (DottyProject.close p o) env).project =
      DottyProject.close p o ∧
    (DottyProject.ensure_sbt_running (DottyProject.close p o) env).spawns
      = 0 ∧
    (DottyProject.ensure_sbt_running (DottyProject.close p o) env).result =
      Except.ok () := by
  have hc : DottyProject.close p o =
      ⟨p.root, some (SBTProcess.close s o).state⟩ := by
    simp [DottyProject.close, h]
  rw [hc]
  simp [DottyProject.ensure_sbt_running]

/-- Witness for C1 (amended) at concrete inputs. -/
theorem close_keeps_reference_witness :
    (DottyProject.close ⟨"/dotty", some ⟨"/dotty", some ⟨true⟩⟩⟩
        CloseOutcome.gracefulEof).sbt_process =
      some (SBTProcess.close ⟨"/dotty", some ⟨true⟩⟩
        CloseOutcome.gracefulEof).state ∧
    (DottyProject.ensure_sbt_running
        (DottyProject.close ⟨"/dotty", some ⟨"/dotty", some ⟨true⟩⟩⟩
          CloseOutcome.gracefulEof)
        ⟨true, true, StartupRead.promptStd ""⟩).spawns = 0 := by
  have h := close_keeps_reference ⟨"/dotty", some ⟨"/dotty", some ⟨true⟩⟩⟩
    ⟨"/dotty", some ⟨true⟩⟩ CloseOutcome.gracefulEof
    ⟨true, true, StartupRead.promptStd ""⟩ rfl
  exact ⟨h.1, h.2.2.1⟩

/-- C10: the facade operations `scalac` and `testCompilation` are total
string-in/string-out functions (their embedding returns a plain string
on every input); any `ValueError`/`RuntimeError` reaching the `except`
ladder — from session startup via `ensure_sbt_running` or from
execution on a dead session — is converted to a string beginning with
`"Error: "`, and any other exception to a string beginning with
`"Unexpected error: "`. -/
theorem facade_converts_exceptions (p : DottyProject) (file pat : String)
    (options : List String) (env : StartEnv) (rd : ReadOutcome)
    (e : PyExc) :
    ((DottyProject.ensure_sbt_running p env).result = Except.error e →
      (DottyProject.scalac p file options env rd).2 = pyExcToMsg e ∧
      (DottyProject.testCompilation p pat env rd).2 = pyExcToMsg e) ∧
    (∀ (s : SBTProcess), p.sbt_process = some s → s.process = none →
      (DottyProject.scalac p file options env rd).2 =
        pyExcToMsg (PyExc.runtimeError "SBT process is not running") ∧
      (DottyProject.testCompilation p pat env rd).2 =
        pyExcToMsg (PyExc.runtimeError "SBT process is not running")) ∧
    (∀ m, pyExcToMsg (PyExc.valueError m) = "Error: " ++ m) ∧
    (∀ m, pyExcToMsg (PyExc.runtimeError m) = "Error: " ++ m) ∧
    (∀ m, pyExcToMsg (PyExc.otherExc m) = "Unexpected error: " ++ m) ∧
    (∀ m, pyStartsWith ("Error: " ++ m) "Error: " = true) ∧
    (∀ m, pyStartsWith ("Unexpected error: " ++ m) "Unexpected error: "
      = true) := by
  refine ⟨?_, ?_, fun m => rfl, fun m => rfl, fun m => rfl,
    fun m => pyStartsWith_append "Error: " m,
    fun m => pyStartsWith_append "Unexpected error: " m⟩
  · intro h
    constructor
    · simp [DottyProject.scalac, h]
    · simp [DottyProject.testCompilation, h]
  · intro s hs hn
    constructor
    · simp [DottyProject.scalac, DottyProject.ensure_sbt_running,
        SBTProcess.execute_command, hs, hn]
    · simp [DottyProject.testCompilation, DottyProject.ensure_sbt_running,
        SBTProcess.execute_command, hs, hn]

/-- Witness for C10 at concrete inputs. -/
theorem facade_converts_exceptions_witness :
    (DottyProject.scalac ⟨"/p", none⟩ "Foo.scala" []
        ⟨true, false, StartupRead.promptStd ""⟩ (ReadOutcome.matched "")).2 =
      pyExcToMsg (PyExc.valueError
        "No build.sbt found in /p. Not a valid SBT project.") ∧
    (DottyProject.testCompilation ⟨"/p", none⟩ "pos"
        ⟨true, false, StartupRead.promptStd ""⟩ (ReadOutcome.matched "")).2 =
      pyExcToMsg (PyExc.valueError
        "No build.sbt found in /p. Not a valid SBT project.") ∧
    pyStartsWith ("Error: " ++ "boom") "Error: " = true := by
  have h := facade_converts_exceptions ⟨"/p", none⟩ "Foo.scala" "pos" []
    ⟨true, false, StartupRead.promptStd ""⟩ (ReadOutcome.matched "")
    (PyExc.valueError "No build.sbt found in /p. Not a valid SBT project.")
  exact ⟨(h.1 rfl).1, (h.1 rfl).2, h.2.2.2.2.2.1 "boom"⟩

end DottyMcp
